import Mathlib

/-!
Shallow embedding of the SEO scoring and aggregation pipeline of the
hrseo backend (src/controllers/seo.controller.ts and
src/services/mozApi.service.ts).

Numbers are modelled as rationals.  The transcendental primitives the
code calls — `Math.log1p` and `Math.pow` — are external library
functions; they are passed in as explicit function parameters, and each
theorem assumes only the standard facts about them that it needs
(`log1p 0 = 0`, monotonicity, nonnegativity on nonnegative inputs).
`Math.round` rounds half toward positive infinity, so it is modelled as
`⌊q + 1/2⌋`.
-/

namespace HrSeo

/-- JavaScript `Math.round`: round half toward positive infinity. -/
def jsRound (q : ℚ) : ℤ := ⌊q + 1/2⌋

/-- `Math.max(0, Math.min(100, z))` applied after rounding. -/
def clamp100 (z : ℤ) : ℤ := max 0 (min 100 z)

theorem jsRound_mono {a b : ℚ} (h : a ≤ b) : jsRound a ≤ jsRound b :=
  Int.floor_le_floor (by linarith)

theorem clamp100_mono {a b : ℤ} (h : a ≤ b) : clamp100 a ≤ clamp100 b :=
  max_le_max le_rfl (min_le_min le_rfl h)

theorem clamp100_nonneg (z : ℤ) : 0 ≤ clamp100 z := le_max_left 0 _

theorem clamp100_le_100 (z : ℤ) : clamp100 z ≤ 100 := by
  unfold clamp100
  rcases le_total 0 (min 100 z) with h | h
  · rw [max_eq_right h]; exact min_le_left _ _
  · rw [max_eq_left h]; norm_num

/-- One vendor site-metrics record (the fields that
`seo.controller.ts` reads from `site_metrics`). -/
structure SiteMetrics where
  root_domain : String
  domain_authority : ℚ
  page_authority : ℚ
  root_domains_to_root_domain : ℚ
  spam_score : ℚ
  external_pages_to_page : ℚ
  root_domains_to_page : ℚ
  indirect_root_domains_to_page : ℚ
  link_propensity : ℚ
deriving DecidableEq

/-- The all-zero metrics record. -/
def zeroMetrics : SiteMetrics :=
  { root_domain := ""
    domain_authority := 0
    page_authority := 0
    root_domains_to_root_domain := 0
    spam_score := 0
    external_pages_to_page := 0
    root_domains_to_page := 0
    indirect_root_domains_to_page := 0
    link_propensity := 0 }

/-- `calculateCF` from seo.controller.ts (popularity score).  `log1p`
stands for `Math.log1p`.  `none` models a missing/undefined metrics
argument, which the early guard maps to 0. -/
def calculateCF (log1p : ℚ → ℚ) : Option SiteMetrics → ℤ
  | none => 0
  | some metrics =>
    let externalPages := max metrics.external_pages_to_page 1
    let referringDomains := max metrics.root_domains_to_page 1
    let indirectRefDomains := metrics.indirect_root_domains_to_page
    let linkPropensity := min 1 metrics.link_propensity
    let rawVolume := externalPages * linkPropensity
    let depthMultiplier := 1 + (8 / 25 : ℚ) * log1p indirectRefDomains
    let logVolume := log1p rawVolume * depthMultiplier
    let logVolumeCompressed := log1p logVolume
    let cf := 14 + 5 * logVolumeCompressed + (4 / 5 : ℚ) * log1p referringDomains
    clamp100 (jsRound cf)

/-- `calculateTF` from seo.controller.ts (trust score).  `jspow` stands
for `Math.pow`. -/
def calculateTF (log1p : ℚ → ℚ) (jspow : ℚ → ℚ → ℚ) : Option SiteMetrics → ℤ
  | none => 0
  | some metrics =>
    let pageAuthority := metrics.page_authority
    let spamScore := metrics.spam_score / 100
    let trustSeed := pageAuthority * (13 / 200 : ℚ)
    let spamPenalty := 1 - (19 / 20 : ℚ) * jspow spamScore (27 / 20)
    let tfRaw := (17 / 2 : ℚ) + (289 / 50 : ℚ) * log1p (trustSeed * (13 / 2))
    let tf := tfRaw * spamPenalty
    clamp100 (jsRound tf)


/-- One organic SERP item (the fields the controller reads). -/
structure SerpItem where
  url : String
  title : String
  description : String
  rank_group : ℚ
  rank_absolute : ℚ
deriving DecidableEq

/-- One entry of the `competitors` array built by `getSerpCompetitors`. -/
structure Competitor where
  url : String
  title : String
  description : String
  rankGroup : ℚ
  rankAbsolute : ℚ
  domain : String
  domainAuthority : ℚ
  pageAuthority : ℚ
  rootDomains : ℚ
  spamScore : ℚ
  cf : ℤ
  tf : ℤ
deriving DecidableEq, Inhabited

/-- The record built for one SERP item inside the `map` of step 4 of
`getSerpCompetitors`; `metrics` is
`siteMetricsResults?.results_by_site?.[index]?.site_metrics`, absent
when the index is out of range. -/
def mkCompetitor (log1p : ℚ → ℚ) (jspow : ℚ → ℚ → ℚ)
    (item : SerpItem) (metrics : Option SiteMetrics) : Competitor :=
  { url := item.url
    title := item.title
    description := item.description
    rankGroup := item.rank_group
    rankAbsolute := item.rank_absolute
    domain := (metrics.map (·.root_domain)).getD ""
    domainAuthority := (metrics.map (·.domain_authority)).getD 0
    pageAuthority := (metrics.map (·.page_authority)).getD 0
    rootDomains := (metrics.map (·.root_domains_to_root_domain)).getD 0
    spamScore := (metrics.map (·.spam_score)).getD 0
    cf := calculateCF log1p metrics
    tf := calculateTF log1p jspow metrics }

/-- Step 4 of `getSerpCompetitors`: zip the first 10 SERP items with the
batched metrics positionally (`results_by_site[index]`). -/
def serpCompetitors (log1p : ℚ → ℚ) (jspow : ℚ → ℚ → ℚ)
    (serpItems : List SerpItem) (resultsBySite : List (Option SiteMetrics)) :
    List Competitor :=
  (serpItems.take 10).enum.map fun p =>
    mkCompetitor log1p jspow p.2 (resultsBySite.getD p.1 none)

/-- The `weights` record of `calculateKeywordDifficulty`. -/
structure KdWeights where
  tf : ℚ
  da : ℚ
  cf : ℚ
  pa : ℚ
  rd_factor : ℚ

def weights : KdWeights :=
  { tf := 3 / 10, da := 1 / 4, cf := 1 / 5, pa := 3 / 20, rd_factor := 1 / 10 }

/-- The per-competitor strength score inside `calculateKeywordDifficulty`.
The source multiplies `weights.tf` by `comp.cf` (not `comp.tf`), which
this embedding reproduces verbatim. -/
def competitorScore (log1p : ℚ → ℚ) (comp : Competitor) : ℚ :=
  let rdFactor := min 50 (log1p comp.rootDomains * 3)
  weights.tf * (comp.cf : ℚ) +
    weights.da * comp.domainAuthority +
    weights.cf * (comp.cf : ℚ) +
    weights.pa * comp.pageAuthority +
    weights.rd_factor * rdFactor

/-- `calculateKeywordDifficulty` from seo.controller.ts. -/
def calculateKeywordDifficulty (log1p : ℚ → ℚ) (competitors : List Competitor) : ℤ :=
  if competitors.isEmpty then 0
  else
    let scores := (competitors.take 10).map (competitorScore log1p)
    let avgStrength := scores.sum / (scores.length : ℚ)
    clamp100 (jsRound (31 / 20 * avgStrength - 5))

/-- Modelled from the spec for comparison with `competitorScore` (claim
C1): a weighted linear blend of "trust score, domain authority,
popularity score, page authority, and a log-normalized
referring-domain factor", i.e. the trust weight multiplies the
record's `tf`. -/
def specCompetitorScore (log1p : ℚ → ℚ) (comp : Competitor) : ℚ :=
  let rdFactor := min 50 (log1p comp.rootDomains * 3)
  weights.tf * (comp.tf : ℚ) +
    weights.da * comp.domainAuthority +
    weights.cf * (comp.cf : ℚ) +
    weights.pa * comp.pageAuthority +
    weights.rd_factor * rdFactor

/-- Modelled from the spec for comparison (claim C1): the aggregate
difficulty with the spec's blend substituted for the code's. -/
def specKeywordDifficulty (log1p : ℚ → ℚ) (competitors : List Competitor) : ℤ :=
  if competitors.isEmpty then 0
  else
    let scores := (competitors.take 10).map (specCompetitorScore log1p)
    let avgStrength := scores.sum / (scores.length : ℚ)
    clamp100 (jsRound (31 / 20 * avgStrength - 5))

/-- JavaScript `a || b` on a possibly-absent number: `null`, `undefined`
and `0` are falsy. -/
def jsOrQ (a : Option ℚ) (b : ℚ) : ℚ :=
  match a with
  | none => b
  | some v => if v = 0 then b else v

/-- The `keywordDifficulty` field of the `getSerpCompetitors` response:
`keywordDifficulty || calculatedKD`. -/
def serpResponseKD (log1p : ℚ → ℚ) (vendorKD : Option ℚ)
    (competitors : List Competitor) : ℚ :=
  jsOrQ vendorKD ((calculateKeywordDifficulty log1p competitors : ℤ) : ℚ)

/-- Strip a leading URL scheme: the regex `^https?:\/\/`. -/
def stripSchemeL (cs : List Char) : List Char :=
  if ("https://".toList).isPrefixOf cs then cs.drop 8
  else if ("http://".toList).isPrefixOf cs then cs.drop 7
  else cs

/-- Strip a leading `www.`: the regex `^www\.`. -/
def stripWwwL (cs : List Char) : List Char :=
  if ("www.".toList).isPrefixOf cs then cs.drop 4 else cs

/-- Strip trailing slashes: the regex `\/+$`. -/
def stripSlashesL (cs : List Char) : List Char :=
  (cs.reverse.dropWhile (· = '/')).reverse

/-- JavaScript `String.prototype.trim`. -/
def trimL (cs : List Char) : List Char :=
  ((cs.dropWhile Char.isWhitespace).reverse.dropWhile Char.isWhitespace).reverse

/-- The domain formatting of `getDomainMetrics`:
`domain.replace(/^https?:\/\//, "").replace(/^www\./, "").replace(/\/+$/, "").trim()`. -/
def formatDomain (domain : String) : String :=
  String.mk (trimL (stripSlashesL (stripWwwL (stripSchemeL domain.toList))))


/-- `tasks[0].result[0]` of the vendor backlinks-summary payload (the
fields `processBacklinksSummary` reads).  JSON objects used as maps are
modelled as key-value lists. -/
structure SummaryItem where
  rank : ℚ
  referring_ips : ℚ
  referring_subnets : ℚ
  referring_domains : ℚ
  backlinks : ℚ
  referring_pages : ℚ
  broken_backlinks : ℚ
  referring_links_types : List (String × ℚ)
  referring_links_countries : List (String × ℚ)
  referring_links_tld : List (String × ℚ)
deriving DecidableEq

/-- The flattened backlinks-summary record the handler returns. -/
structure SummaryOut where
  rank : ℚ
  referringIPs : ℚ
  referringSubnets : ℚ
  referringDomains : ℚ
  backlinks : ℚ
  referringPages : ℚ
  linkTypes : List String × List ℚ
  activeLinksRatio : ℚ
  dofollowLinksRatio : ℚ
  avgLinksPerDomain : ℚ
  avgLinksPerIP : ℚ
  avgLinksPerSubnet : ℚ
  referringLinksCountries : List (String × ℚ)
  referringLinksTLDs : List (String × ℚ)
deriving DecidableEq

/-- The body of `processBacklinksSummary` past its null guard.  A
JavaScript conditional `x ? e : 0` on a number is truthy exactly when
`x ≠ 0`. -/
def processSummaryItem (item : SummaryItem) : SummaryOut :=
  let typesObj := item.referring_links_types
  let types := typesObj.map Prod.fst
  let values := typesObj.map Prod.snd
  let activeLinksRatio :=
    if item.backlinks ≠ 0 then (item.backlinks - item.broken_backlinks) / item.backlinks
    else 0
  let dofollowLinksRatio :=
    if item.backlinks ≠ 0 then item.referring_pages / item.backlinks else 0
  let avgLinksPerDomain :=
    if item.referring_domains ≠ 0 then item.referring_pages / item.referring_domains
    else 0
  let avgLinksPerIP :=
    if item.referring_ips ≠ 0 then item.referring_pages / item.referring_ips else 0
  let avgLinksPerSubnet :=
    if item.referring_subnets ≠ 0 then item.referring_pages / item.referring_subnets
    else 0
  { rank := item.rank
    referringIPs := item.referring_ips
    referringSubnets := item.referring_subnets
    referringDomains := item.referring_domains
    backlinks := item.backlinks
    referringPages := item.referring_pages
    linkTypes := (types, values)
    activeLinksRatio := activeLinksRatio
    dofollowLinksRatio := dofollowLinksRatio
    avgLinksPerDomain := avgLinksPerDomain
    avgLinksPerIP := avgLinksPerIP
    avgLinksPerSubnet := avgLinksPerSubnet
    referringLinksCountries := item.referring_links_countries
    referringLinksTLDs := item.referring_links_tld }

/-- `processBacklinksSummary`: `none` models a null payload or one whose
`tasks[0].result[0]` path is missing. -/
def processBacklinksSummary : Option SummaryItem → Option SummaryOut :=
  Option.map processSummaryItem

/-- One item of the vendor backlinks-history payload.  `date` is
optional (`item.date?.split(" ")[0] || ""`). -/
structure HistoryItem where
  date : Option String
  rank : ℚ
  backlinks : ℚ
  new_backlinks : ℚ
  lost_backlinks : ℚ
deriving DecidableEq

/-- One flattened backlinks-history point. -/
structure HistoryOut where
  date : String
  month : String
  monthName : String
  rank : ℚ
  backlinks : ℚ
  newBacklinks : ℚ
  lostBacklinks : ℚ
deriving DecidableEq

/-- The body of the `map` in `processBacklinksHistory`.  `jsMonthName`
abstracts the JavaScript `Date`-based formatting
`monthNames[d.getMonth()] + " " + d.getFullYear()`. -/
def processHistoryItem (jsMonthName : String → String) (item : HistoryItem) :
    HistoryOut :=
  let date := (item.date.map fun s => ((s.splitOn " ").headD "")).getD ""
  let month := String.mk (date.toList.take 7)
  { date := date
    month := month
    monthName := jsMonthName date
    rank := item.rank
    backlinks := item.backlinks
    newBacklinks := item.new_backlinks
    lostBacklinks := item.lost_backlinks }

/-- `processBacklinksHistory`: `none` models a null payload or a missing
`tasks[0].result[0].items` path. -/
def processBacklinksHistory (jsMonthName : String → String) :
    Option (List HistoryItem) → Option (List HistoryOut)
  | none => none
  | some items => some (items.map (processHistoryItem jsMonthName))

/-- One item of the vendor anchors payload. -/
structure AnchorItem where
  anchor : String
  referring_domains : ℚ
  backlinks : ℚ
deriving DecidableEq

/-- One flattened anchors entry of the response. -/
structure AnchorOut where
  anchorText : String
  referringDomains : ℚ
  total : ℚ
deriving DecidableEq

/-- The anchors field: `anchors?.tasks?.[0]?.result?.[0]?.items?.map(...) || []`. -/
def processAnchors : Option (List AnchorItem) → List AnchorOut
  | none => []
  | some items =>
    items.map fun a =>
      { anchorText := a.anchor, referringDomains := a.referring_domains
        total := a.backlinks }

/-- The success payload of `getDomainMetrics`.  The site-metrics,
distributions and top-referring-domains payloads are passed through
as abstract types: the handler only reshapes them with total
projections, which no claim depends on. -/
structure DMResponse (α β γ : Type) where
  domain : String
  siteMetrics : α
  distributions : β
  topReferringDomains : γ
  backlinksSummary : Option SummaryOut
  backlinksHistory : Option (List HistoryOut)
  anchors : List AnchorOut

/-- `getDomainMetrics` from seo.controller.ts, as a function of the six
sub-fetch outcomes.  The three site-authority fetches are awaited with
no inner try/catch, so their failures reach the outer catch
(`sendError(res, 500, …)`); the three backlinks fetches each sit in an
inner try/catch that degrades the value to null.  The error side
carries the HTTP status and message passed to `sendError`. -/
def getDomainMetrics {α β γ : Type} (jsMonthName : String → String) (domain : String)
    (fetchSiteMetrics : Except String α)
    (fetchDistributions : Except String β)
    (fetchTopReferringDomains : Except String γ)
    (fetchBacklinksSummary : Except String (Option SummaryItem))
    (fetchBacklinksHistory : Except String (Option (List HistoryItem)))
    (fetchAnchors : Except String (Option (List AnchorItem))) :
    Except (ℕ × String) (DMResponse α β γ) :=
  if domain = "" then .error (400, "Domain is required")
  else
    match fetchSiteMetrics with
    | .error e => .error (500, e)
    | .ok siteMetrics =>
      match fetchDistributions with
      | .error e => .error (500, e)
      | .ok distributions =>
        match fetchTopReferringDomains with
        | .error e => .error (500, e)
        | .ok topReferringDomains =>
          let backlinksSummary := fetchBacklinksSummary.toOption.join
          let backlinksHistory := fetchBacklinksHistory.toOption.join
          let anchors := fetchAnchors.toOption.join
          .ok { domain := formatDomain domain
                siteMetrics := siteMetrics
                distributions := distributions
                topReferringDomains := topReferringDomains
                backlinksSummary := processBacklinksSummary backlinksSummary
                backlinksHistory := processBacklinksHistory jsMonthName backlinksHistory
                anchors := processAnchors anchors }

/-- The credential object accepted by the Moz client constructor; all
three fields are optional. -/
structure MozApiConfig where
  accessId : Option String
  secretKey : Option String
  token : Option String
deriving DecidableEq

/-- JavaScript truthiness of a possibly-absent string: `undefined` and
`""` are falsy. -/
def jsTruthyStr (s : Option String) : Bool :=
  match s with
  | none => false
  | some v => !v.isEmpty

/-- The `MozApiService` constructor: the token it stores, or the
configuration error it throws.  `base64` abstracts
`Buffer.from(...).toString("base64")`. -/
def mozConstruct (base64 : String → String) (config : MozApiConfig) :
    Except String String :=
  if jsTruthyStr config.token then .ok (config.token.getD "")
  else if jsTruthyStr config.accessId && jsTruthyStr config.secretKey then
    .ok (base64 (config.accessId.getD "" ++ ":" ++ config.secretKey.getD ""))
  else .error "Moz API requires either 'token' or both 'accessId' and 'secretKey'"

/-- The direct-token credential form is supplied. -/
def hasTokenForm (c : MozApiConfig) : Bool := jsTruthyStr c.token

/-- The id+secret credential form is supplied. -/
def hasPairForm (c : MozApiConfig) : Bool :=
  jsTruthyStr c.accessId && jsTruthyStr c.secretKey

/-! Claim theorems. -/

/-- C5 counterexample: the claim says `"https://www.Example.com/"`
normalizes to exactly `"example.com"`, but the formatter never
lowercases, so the capital E survives. -/
theorem c5_counterexample : formatDomain "https://www.Example.com/" ≠ "example.com" := by
  decide

/-- C5 (amended): the formatter strips the scheme, a leading `www.`,
trailing slashes and surrounding whitespace, but preserves letter case:
`"https://www.Example.com/"` normalizes to `"Example.com"`, while
already-lowercase inputs normalize to `"example.com"`. -/
theorem c5_format_domain :
    formatDomain "https://www.Example.com/" = "Example.com" ∧
    formatDomain "example.com" = "example.com" ∧
    formatDomain "https://www.example.com/" = "example.com" ∧
    formatDomain "http://www.example.com///" = "example.com" ∧
    formatDomain "  example.com  " = "example.com" := by
  decide

/-- C9: the backlinks-summary normalizer returns 0 for every computed
ratio whose denominator is 0; in particular `backlinks = 0` yields
`activeLinksRatio = 0` and `dofollowLinksRatio = 0`. -/
theorem c9_zero_denominators (item : SummaryItem) :
    processBacklinksSummary (some item) = some (processSummaryItem item) ∧
    (item.backlinks = 0 →
      (processSummaryItem item).activeLinksRatio = 0 ∧
      (processSummaryItem item).dofollowLinksRatio = 0) ∧
    (item.referring_domains = 0 → (processSummaryItem item).avgLinksPerDomain = 0) ∧
    (item.referring_ips = 0 → (processSummaryItem item).avgLinksPerIP = 0) ∧
    (item.referring_subnets = 0 → (processSummaryItem item).avgLinksPerSubnet = 0) := by
  refine ⟨rfl, ?_, ?_, ?_, ?_⟩ <;> intro h <;> simp [processSummaryItem, h]

/-- A summary record with every count zero, for the C9 witness. -/
def zeroSummaryItem : SummaryItem :=
  { rank := 0, referring_ips := 0, referring_subnets := 0, referring_domains := 0
    backlinks := 0, referring_pages := 0, broken_backlinks := 0
    referring_links_types := [], referring_links_countries := []
    referring_links_tld := [] }

theorem c9_zero_denominators_witness :
    (processSummaryItem zeroSummaryItem).activeLinksRatio = 0 ∧
    (processSummaryItem zeroSummaryItem).dofollowLinksRatio = 0 ∧
    (processSummaryItem zeroSummaryItem).avgLinksPerDomain = 0 :=
  ⟨((c9_zero_denominators zeroSummaryItem).2.1 rfl).1,
    ((c9_zero_denominators zeroSummaryItem).2.1 rfl).2,
    (c9_zero_denominators zeroSummaryItem).2.2.1 rfl⟩

/-- C10: a SERP item whose positional metrics entry is absent gets
`cf = 0` and `tf = 0` through the early guards of `calculateCF` and
`calculateTF`, an empty `domain`, and zero `domainAuthority`,
`pageAuthority`, `rootDomains` and `spamScore`. -/
theorem c10_missing_metrics_defaults (log1p : ℚ → ℚ) (jspow : ℚ → ℚ → ℚ)
    (item : SerpItem) :
    calculateCF log1p none = 0 ∧
    calculateTF log1p jspow none = 0 ∧
    (mkCompetitor log1p jspow item none).cf = 0 ∧
    (mkCompetitor log1p jspow item none).tf = 0 ∧
    (mkCompetitor log1p jspow item none).domain = "" ∧
    (mkCompetitor log1p jspow item none).domainAuthority = 0 ∧
    (mkCompetitor log1p jspow item none).pageAuthority = 0 ∧
    (mkCompetitor log1p jspow item none).rootDomains = 0 ∧
    (mkCompetitor log1p jspow item none).spamScore = 0 :=
  ⟨rfl, rfl, rfl, rfl, rfl, rfl, rfl, rfl, rfl⟩

/-- C8 counterexample: a configuration supplying BOTH credential forms
does not fail — the constructor silently prefers the token — so
"exactly one form or construction fails" does not hold. -/
theorem c8_counterexample :
    hasTokenForm ⟨some "id", some "secret", some "TOKEN"⟩ = true ∧
    hasPairForm ⟨some "id", some "secret", some "TOKEN"⟩ = true ∧
    mozConstruct (fun s => s) ⟨some "id", some "secret", some "TOKEN"⟩
      = .ok "TOKEN" :=
  ⟨rfl, rfl, rfl⟩

/-- C8 (amended): construction succeeds iff at least one complete
credential form is supplied; a truthy token always wins (even when the
pair is also supplied), otherwise a truthy id+secret pair is
base64-encoded as `id:secret`, and with neither form construction
fails with the configuration error. -/
theorem c8_credential_forms (base64 : String → String) (c : MozApiConfig) :
    ((mozConstruct base64 c).isOk = (hasTokenForm c || hasPairForm c)) ∧
    (hasTokenForm c = true → mozConstruct base64 c = .ok (c.token.getD "")) ∧
    (hasTokenForm c = false → hasPairForm c = true →
      mozConstruct base64 c
        = .ok (base64 (c.accessId.getD "" ++ ":" ++ c.secretKey.getD ""))) ∧
    (hasTokenForm c = false → hasPairForm c = false →
      mozConstruct base64 c
        = .error "Moz API requires either 'token' or both 'accessId' and 'secretKey'") := by
  unfold mozConstruct hasTokenForm hasPairForm
  by_cases ht : jsTruthyStr c.token <;>
    by_cases hp : jsTruthyStr c.accessId && jsTruthyStr c.secretKey <;>
      simp [ht, hp, Except.isOk, Except.toBool]

theorem c8_credential_forms_witness :
    mozConstruct (fun s => s) ⟨some "id", some "secret", none⟩ = .ok "id:secret" :=
  (c8_credential_forms (fun s => s) ⟨some "id", some "secret", none⟩).2.2.1 rfl rfl

/-- A competitor whose only nonzero input is its domain authority, used
for the C2 counterexample. -/
def c2Competitor : Competitor :=
  { url := "", title := "", description := "", rankGroup := 0, rankAbsolute := 0
    domain := "", domainAuthority := 100, pageAuthority := 0, rootDomains := 0
    spamScore := 0, cf := 0, tf := 0 }

/-- C2 counterexample: a vendor-returned difficulty of 0 is falsy under
`||`, so the response carries the locally computed value 34 instead of
the vendor's 0 — the computed value does override this vendor value. -/
theorem c2_counterexample :
    serpResponseKD id (some 0) [c2Competitor] = 34 ∧ (34 : ℚ) ≠ 0 := by
  constructor
  · simp only [serpResponseKD, jsOrQ, calculateKeywordDifficulty, competitorScore,
      weights, jsRound, clamp100, c2Competitor, if_pos, List.isEmpty_cons,
      List.take, List.map, List.sum_cons, List.sum_nil, List.length, id_eq]
    norm_num [min_def, max_def]
  · norm_num

/-- C2 (amended): the response `keywordDifficulty` equals the vendor
difficulty whenever one was obtained and is nonzero; a missing vendor
value, and equally a vendor value of exactly 0, is replaced by the
computed aggregate (JavaScript `||` treats 0 as absent). -/
theorem c2_vendor_precedence (log1p : ℚ → ℚ) (vendorKD : Option ℚ)
    (competitors : List Competitor) :
    (∀ v : ℚ, vendorKD = some v → v ≠ 0 →
      serpResponseKD log1p vendorKD competitors = v) ∧
    ((vendorKD = none ∨ vendorKD = some 0) →
      serpResponseKD log1p vendorKD competitors
        = ((calculateKeywordDifficulty log1p competitors : ℤ) : ℚ)) := by
  constructor
  · rintro v rfl hv
    simp [serpResponseKD, jsOrQ, hv]
  · rintro (rfl | rfl) <;> simp [serpResponseKD, jsOrQ]

theorem c2_vendor_precedence_witness :
    serpResponseKD id (some 7) [] = 7 :=
  (c2_vendor_precedence id (some 7) []).1 7 rfl (by norm_num)

/-- A competitor whose only nonzero input is its trust score, used to
exhibit the C1 bug. -/
def c1Competitor : Competitor :=
  { url := "", title := "", description := "", rankGroup := 0, rankAbsolute := 0
    domain := "", domainAuthority := 0, pageAuthority := 0, rootDomains := 0
    spamScore := 0, cf := 0, tf := 100 }

/-- C1: the blend in `calculateKeywordDifficulty` multiplies the trust
weight `weights.tf` by `comp.cf`, not `comp.tf`, so the trust score
never enters the blend: the per-competitor score is invariant under any
change of `tf`, and on a competitor whose only nonzero field is
`tf = 100` the code yields difficulty 0 while the spec's blend (trust
weight times trust score) yields 42. -/
theorem c1_trust_weight_unused :
    (∀ (log1p : ℚ → ℚ) (c : Competitor) (t : ℤ),
      competitorScore log1p { c with tf := t } = competitorScore log1p c) ∧
    calculateKeywordDifficulty id [c1Competitor] = 0 ∧
    specKeywordDifficulty id [c1Competitor] = 42 ∧
    competitorScore id c1Competitor = 0 ∧
    specCompetitorScore id c1Competitor = 30 := by
  refine ⟨fun log1p c t => rfl, ?_, ?_, ?_, ?_⟩
  · simp only [calculateKeywordDifficulty, competitorScore, weights, jsRound,
      clamp100, c1Competitor, List.isEmpty_cons, List.take, List.map,
      List.sum_cons, List.sum_nil, List.length, id_eq]
    norm_num [min_def, max_def]
  · simp only [specKeywordDifficulty, specCompetitorScore, weights, jsRound,
      clamp100, c1Competitor, List.isEmpty_cons, List.take, List.map,
      List.sum_cons, List.sum_nil, List.length, id_eq]
    norm_num [min_def, max_def]
  · simp only [competitorScore, weights, c1Competitor, id_eq]
    norm_num [min_def, max_def]
  · simp only [specCompetitorScore, weights, c1Competitor, id_eq]
    norm_num [min_def, max_def]

/-- C3 counterexample: when the site-metrics sub-fetch fails, the whole
Domain Metrics request aborts with a 500 error — it does not return a
success response with one degraded field. -/
theorem c3_counterexample :
    (getDomainMetrics (fun _ => "") "example.com"
      (Except.error "boom" : Except String Unit)
      (Except.ok ()) (Except.ok ())
      (Except.ok (none : Option SummaryItem))
      (Except.ok (none : Option (List HistoryItem)))
      (Except.ok (none : Option (List AnchorItem)))).isOk = false ∧
    getDomainMetrics (fun _ => "") "example.com"
      (Except.error "boom" : Except String Unit)
      (Except.ok ()) (Except.ok ())
      (Except.ok (none : Option SummaryItem))
      (Except.ok (none : Option (List HistoryItem)))
      (Except.ok (none : Option (List AnchorItem)))
      = Except.error (500, "boom") :=
  ⟨rfl, rfl⟩

/-- C3 (amended): only the three backlinks sub-fetches (summary,
history, anchors) have isolated failure handling — each such failure
degrades its own field to null (or `[]` for anchors) and the request
still succeeds, as in the spec's backlinks-history scenario — while a
failure of any of the three site-authority fetches (site metrics,
distributions, top referring domains) aborts the whole request with a
500 error. -/
theorem c3_failure_isolation {α β γ : Type} (jsMonthName : String → String)
    (sm : α) (di : β) (tr : γ) (bs : Option SummaryItem)
    (bh : Option (List HistoryItem)) (an : Option (List AnchorItem)) (e : String) :
    getDomainMetrics jsMonthName "example.com"
      (Except.ok sm) (Except.ok di) (Except.ok tr)
      (Except.ok bs) (Except.error e) (Except.ok an)
      = Except.ok { domain := "example.com", siteMetrics := sm, distributions := di
                    topReferringDomains := tr
                    backlinksSummary := processBacklinksSummary bs
                    backlinksHistory := none
                    anchors := processAnchors an } ∧
    getDomainMetrics jsMonthName "example.com"
      (Except.ok sm) (Except.ok di) (Except.ok tr)
      (Except.error e) (Except.ok bh) (Except.ok an)
      = Except.ok { domain := "example.com", siteMetrics := sm, distributions := di
                    topReferringDomains := tr
                    backlinksSummary := none
                    backlinksHistory := processBacklinksHistory jsMonthName bh
                    anchors := processAnchors an } ∧
    getDomainMetrics jsMonthName "example.com"
      (Except.ok sm) (Except.ok di) (Except.ok tr)
      (Except.ok bs) (Except.ok bh) (Except.error e)
      = Except.ok { domain := "example.com", siteMetrics := sm, distributions := di
                    topReferringDomains := tr
                    backlinksSummary := processBacklinksSummary bs
                    backlinksHistory := processBacklinksHistory jsMonthName bh
                    anchors := [] } ∧
    getDomainMetrics jsMonthName "example.com"
      (Except.error e : Except String α) (Except.ok di) (Except.ok tr)
      (Except.ok bs) (Except.ok bh) (Except.ok an)
      = Except.error (500, e) ∧
    getDomainMetrics jsMonthName "example.com"
      (Except.ok sm) (Except.error e : Except String β) (Except.ok tr)
      (Except.ok bs) (Except.ok bh) (Except.ok an)
      = Except.error (500, e) ∧
    getDomainMetrics jsMonthName "example.com"
      (Except.ok sm) (Except.ok di) (Except.error e : Except String γ)
      (Except.ok bs) (Except.ok bh) (Except.ok an)
      = Except.error (500, e) :=
  ⟨rfl, rfl, rfl, rfl, rfl, rfl⟩

/-- A fixed SERP item used for the C4 inputs. -/
def c4Item : SerpItem :=
  { url := "u", title := "t", description := "d", rank_group := 1, rank_absolute := 1 }

/-- The competitor list for 10 SERP items zipped against a 7-entry
metrics batch. -/
def c4Competitors : List Competitor :=
  serpCompetitors id (fun _ _ => 0) (List.replicate 10 c4Item)
    (List.replicate 7 (some zeroMetrics))

/-- C4 counterexample: with 10 SERP items and 7 metrics entries the
list still has length 10 and does not throw, but competitor 7 (the
first missing entry) has `cf = 0` — the early guard — and not the
floor value `calculateCF` gives a zero-valued metrics record. -/
theorem c4_counterexample :
    c4Competitors.length = 10 ∧
    (c4Competitors.getD 7 default).cf = 0 ∧
    calculateCF id (some zeroMetrics) = 15 ∧
    (c4Competitors.getD 7 default).cf ≠ calculateCF id (some zeroMetrics) := by
  have h15 : calculateCF id (some zeroMetrics) = 15 := by
    simp only [calculateCF, zeroMetrics, jsRound, clamp100, id_eq]
    norm_num [min_def, max_def]
  have h0 : (c4Competitors.getD 7 default).cf = 0 := rfl
  refine ⟨rfl, h0, h15, ?_⟩
  rw [h0, h15]
  decide

/-- C4 (amended): the positional zip never throws — the competitor
list has one entry per considered SERP item (`min 10` of the item
count) — and every item whose positional metrics entry is missing gets
`cf = 0` and `tf = 0` through the early guards, not the floor values,
together with empty-string/zero metric fields. -/
theorem c4_zip_defaults (log1p : ℚ → ℚ) (jspow : ℚ → ℚ → ℚ)
    (items : List SerpItem) (resultsBySite : List (Option SiteMetrics)) :
    (serpCompetitors log1p jspow items resultsBySite).length = min 10 items.length ∧
    (∀ i c, (serpCompetitors log1p jspow items resultsBySite)[i]? = some c →
      resultsBySite.length ≤ i →
      c.cf = 0 ∧ c.tf = 0 ∧ c.domain = "" ∧ c.domainAuthority = 0 ∧
      c.pageAuthority = 0 ∧ c.rootDomains = 0 ∧ c.spamScore = 0) := by
  constructor
  · simp [serpCompetitors, List.enum_length]
  · intro i c hc hi
    rw [serpCompetitors, List.getElem?_map, List.getElem?_enum] at hc
    cases h : (items.take 10)[i]? with
    | none => rw [h] at hc; simp at hc
    | some it =>
      rw [h] at hc
      simp only [Option.map_some'] at hc
      have hnone : resultsBySite.getD i none = none := by
        rw [List.getD_eq_getElem?_getD, List.getElem?_eq_none hi]
        rfl
      rw [hnone] at hc
      obtain rfl := Option.some_injective _ hc
      exact ⟨rfl, rfl, rfl, rfl, rfl, rfl, rfl⟩

theorem c4_zip_defaults_witness :
    (serpCompetitors id (fun _ _ => 0) (List.replicate 2 c4Item) []).length = min 10 2 ∧
    (mkCompetitor id (fun _ _ => 0) c4Item none).cf = 0 :=
  ⟨(c4_zip_defaults id (fun _ _ => 0) (List.replicate 2 c4Item) []).1,
    ((c4_zip_defaults id (fun _ _ => 0) (List.replicate 2 c4Item) []).2 1
      (mkCompetitor id (fun _ _ => 0) c4Item none) rfl (by decide)).1⟩

/-- The clamp keeps a lower bound that is at most 100. -/
theorem le_clamp100 {z : ℤ} (h : 14 ≤ z) : 14 ≤ clamp100 z :=
  le_trans (le_min (by norm_num) h) (le_max_right 0 _)

/-- C6: on the all-zero metrics record `calculateCF` returns at least
its base constant 14 (so never zero) and `calculateTF` returns exactly
9, its base constant 8.5 rounded; and for every metrics record both
scores are integers obtained by rounding then clamping, hence within
[0, 100]. -/
theorem c6_floor_and_clamp (log1p : ℚ → ℚ) (jspow : ℚ → ℚ → ℚ)
    (h0 : log1p 0 = 0) (h1 : 0 ≤ log1p 1) (hpow : jspow 0 (27 / 20) = 0) :
    14 ≤ calculateCF log1p (some zeroMetrics) ∧
    calculateTF log1p jspow (some zeroMetrics) = 9 ∧
    ∀ m : Option SiteMetrics,
      0 ≤ calculateCF log1p m ∧ calculateCF log1p m ≤ 100 ∧
      0 ≤ calculateTF log1p jspow m ∧ calculateTF log1p jspow m ≤ 100 := by
  refine ⟨?_, ?_, ?_⟩
  · have hcf : calculateCF log1p (some zeroMetrics)
        = clamp100 (jsRound (14 + 4 / 5 * log1p 1)) := by
      simp only [calculateCF, zeroMetrics]
      norm_num [max_def, min_def, h0]
    rw [hcf]
    refine le_clamp100 (Int.le_floor.mpr ?_)
    push_cast
    linarith
  · have htf : calculateTF log1p jspow (some zeroMetrics)
        = clamp100 (jsRound (17 / 2)) := by
      simp only [calculateTF, zeroMetrics]
      norm_num [h0, hpow]
    rw [htf]
    norm_num [jsRound, clamp100]
  · intro m
    cases m with
    | none =>
      refine ⟨le_refl 0, by norm_num [calculateCF], le_refl 0, by norm_num [calculateTF]⟩
    | some mm =>
      exact ⟨clamp100_nonneg _, clamp100_le_100 _, clamp100_nonneg _, clamp100_le_100 _⟩

theorem c6_floor_and_clamp_witness :
    14 ≤ calculateCF id (some zeroMetrics) ∧
    calculateTF id (fun _ _ => 0) (some zeroMetrics) = 9 :=
  ⟨(c6_floor_and_clamp id (fun _ _ => 0) rfl zero_le_one rfl).1,
    (c6_floor_and_clamp id (fun _ _ => 0) rfl zero_le_one rfl).2.1⟩

/-- Pointwise comparison of the competitor fields that feed the
difficulty blend (trust, authorities, popularity, referring domains). -/
def CompLE (c d : Competitor) : Prop :=
  c.tf ≤ d.tf ∧ c.domainAuthority ≤ d.domainAuthority ∧ c.cf ≤ d.cf ∧
    c.pageAuthority ≤ d.pageAuthority ∧ c.rootDomains ≤ d.rootDomains

theorem competitorScore_mono (log1p : ℚ → ℚ) (hm : Monotone log1p)
    {c d : Competitor} (h : CompLE c d) :
    competitorScore log1p c ≤ competitorScore log1p d := by
  obtain ⟨htf, hda, hcf, hpa, hrd⟩ := h
  have hcf' : ((c.cf : ℚ)) ≤ (d.cf : ℚ) := by exact_mod_cast hcf
  have hrdf : min (50 : ℚ) (log1p c.rootDomains * 3) ≤ min 50 (log1p d.rootDomains * 3) :=
    min_le_min le_rfl (mul_le_mul_of_nonneg_right (hm hrd) (by norm_num))
  simp only [competitorScore, weights]
  linarith

theorem forall₂_map_of_compLE (log1p : ℚ → ℚ) (hm : Monotone log1p) :
    ∀ {l₁ l₂ : List Competitor}, List.Forall₂ CompLE l₁ l₂ →
      List.Forall₂ (· ≤ ·) (l₁.map (competitorScore log1p))
        (l₂.map (competitorScore log1p)) := by
  intro l₁ l₂ h
  induction h with
  | nil => exact List.Forall₂.nil
  | cons hab _ ih => exact List.Forall₂.cons (competitorScore_mono log1p hm hab) ih

/-- C7: the aggregate difficulty always lies in [0, 100], and its final
rescaling is monotonically non-decreasing in the averaged strength:
for lists of 1–10 competitor records compared pointwise on
trust/authority/popularity/referring-domain values, the difficulty of
the smaller list never exceeds that of the larger. -/
theorem c7_monotone_and_range (log1p : ℚ → ℚ) (hm : Monotone log1p)
    (l₁ l₂ : List Competitor) (h : List.Forall₂ CompLE l₁ l₂)
    (hlen : 1 ≤ l₁.length) (hlen10 : l₁.length ≤ 10) :
    calculateKeywordDifficulty log1p l₁ ≤ calculateKeywordDifficulty log1p l₂ ∧
    (∀ l : List Competitor,
      0 ≤ calculateKeywordDifficulty log1p l ∧
        calculateKeywordDifficulty log1p l ≤ 100) ∧
    (∀ a b : ℚ, a ≤ b →
      clamp100 (jsRound (31 / 20 * a - 5)) ≤ clamp100 (jsRound (31 / 20 * b - 5))) := by
  refine ⟨?_, ?_, fun a b hab => clamp100_mono (jsRound_mono (by linarith))⟩
  · cases h with
    | nil => simp at hlen
    | @cons a b t₁ t₂ hab htail =>
      have hforall : List.Forall₂ (· ≤ ·)
          (((a :: t₁).take 10).map (competitorScore log1p))
          (((b :: t₂).take 10).map (competitorScore log1p)) :=
        forall₂_map_of_compLE log1p hm
          (List.forall₂_take 10 (List.Forall₂.cons hab htail))
      have hsum := hforall.sum_le_sum
      have hlen' := hforall.length_eq
      have hpos : (0 : ℚ) <
          ((((a :: t₁).take 10).map (competitorScore log1p)).length : ℚ) := by
        have hp : 0 < (((a :: t₁).take 10).map (competitorScore log1p)).length := by
          simp [List.length_take]
        exact_mod_cast hp
      have havg := (div_le_div_iff_of_pos_right hpos).mpr hsum
      simp only [calculateKeywordDifficulty, List.isEmpty_cons, Bool.false_eq_true,
        if_false]
      refine clamp100_mono (jsRound_mono ?_)
      rw [← hlen']
      linarith
  · intro l
    cases l with
    | nil => exact ⟨le_refl 0, by norm_num [calculateKeywordDifficulty]⟩
    | cons a t => exact ⟨clamp100_nonneg _, clamp100_le_100 _⟩

/-- An all-zero competitor used for the C7 witness. -/
def c7Competitor : Competitor :=
  { url := "", title := "", description := "", rankGroup := 0, rankAbsolute := 0
    domain := "", domainAuthority := 0, pageAuthority := 0, rootDomains := 0
    spamScore := 0, cf := 0, tf := 0 }

theorem c7_monotone_and_range_witness :
    calculateKeywordDifficulty id [c7Competitor]
      ≤ calculateKeywordDifficulty id [c7Competitor] ∧
    (0 ≤ calculateKeywordDifficulty id [] ∧
      calculateKeywordDifficulty id [] ≤ 100) :=
  ⟨(c7_monotone_and_range id monotone_id [c7Competitor] [c7Competitor]
      (List.Forall₂.cons ⟨le_rfl, le_rfl, le_rfl, le_rfl, le_rfl⟩ List.Forall₂.nil)
      (by decide) (by decide)).1,
    (c7_monotone_and_range id monotone_id [c7Competitor] [c7Competitor]
      (List.Forall₂.cons ⟨le_rfl, le_rfl, le_rfl, le_rfl, le_rfl⟩ List.Forall₂.nil)
      (by decide) (by decide)).2.1 []⟩

end HrSeo
